import Mathlib

/-!
Verification of the order lifecycle and distribution engine of the
cod-verifier repository (src/app.py, src/database.py).

The database is embedded as an explicit state value (`DbState`): the
`orders`, `call_logs`, `store_assignments` and `shopify_stores` tables
become lists of records.  Each `Database` method of src/database.py
becomes a pure function on `DbState`; each method opens its own
connection (its own transaction), so each such function models one
committed transaction.  Timestamps (`datetime.now()`) are threaded as an
explicit `now : Nat` parameter.  The Flask endpoint bodies of src/app.py
(api_update_status, api_edit_order, fetch_orders ingestion loop,
distribute_orders) become functions from request data and `DbState` to a
result and a new `DbState`.  The outbound Shopify clients are modelled as
oracles (function parameters) whose outcome may be success, a falsy
response, or a raised exception; the try/except wrappers of the source
catch every exception, which the embedding reflects by consuming the
oracle outcome as a value.
-/

/-- Lowercase a string character by character, as Python str.lower does on
ASCII text. -/
def lowerStr (s : String) : String := String.mk (s.toList.map Char.toLower)

/-- Does the character list start with the given pattern. -/
def startsWithChars : List Char → List Char → Bool
  | [], _ => true
  | _ :: _, [] => false
  | p :: ps, c :: cs => p == c && startsWithChars ps cs

/-- Does the character list contain the pattern as a contiguous run. -/
def hasSubChars (pat : List Char) : List Char → Bool
  | [] => pat.isEmpty
  | c :: cs => startsWithChars pat (c :: cs) || hasSubChars pat cs

/-- Python substring test: `pat in s`. -/
def strContains (pat s : String) : Bool := hasSubChars pat.toList s.toList

/-- Python slicing `s[:n]` guarded by a length check (the guard is
equivalent to unconditional take). -/
def truncate (n : Nat) (s : String) : String :=
  if s.length > n then String.mk (s.toList.take n) else s

/-- One row of the orders table (src/database.py lines 104-137).
`id` is the internal surrogate key, `order_id` the external id.  REAL
`price` is carried as an integer payload (no claim computes with it);
TIMESTAMP columns written by the code become `Nat` instants. -/
structure Order where
  id : Nat
  order_id : String
  store_id : Option Nat
  order_type : String
  customer_name : String
  phone : String
  address : String
  pincode : String
  product_name : String
  price : Int
  qty : Nat
  order_date : String
  status : String
  final_status : Option String
  assigned_to : Option Nat
  assigned_at : Option Nat
  completed_at : Option Nat
  attempts : Nat
  created_at : Nat
  updated_at : Nat
  edited_customer_name : Option String
  edited_phone : Option String
  edited_address : Option String
  edited_pincode : Option String
  edited_at : Option Nat
  shopify_order_number : Option String
  shopify_synced_at : Option Nat
deriving DecidableEq, Repr

/-- One row of the call_logs table. -/
structure CallLog where
  order_ref : Nat
  caller_id : Nat
  phone_dialed : String
  call_start : Option String
  call_end : Option String
  call_duration : Nat
  status : String
  log_notes : Option String
deriving DecidableEq, Repr

/-- One row of the store_assignments table. -/
structure StoreAssignment where
  store_id : Nat
  caller_id : Nat
  assigned_date : String
deriving DecidableEq, Repr

/-- One row of the shopify_stores table (the fields the engine reads). -/
structure StoreRec where
  id : Nat
  name : String
deriving DecidableEq, Repr

/-- The durable store.  `users` keeps only the ids of user rows, which is
all the modelled queries inspect (the store_assignments JOIN).
`nextOrderId` models the SERIAL key generator of the orders table. -/
structure DbState where
  orders : List Order
  call_logs : List CallLog
  assignments : List StoreAssignment
  stores : List StoreRec
  users : List Nat
  nextOrderId : Nat
deriving DecidableEq, Repr

/-- One normalized source record as produced by the fetch adapters and fed
to Database.create_order by the ingestion loop of fetch_orders. -/
structure RawRecord where
  order_id : String
  customer_name : String
  phone : String
  address : String
  pincode : String
  product_name : String
  price : Int
  qty : Nat
  order_date : String
deriving DecidableEq, Repr

/-- The row the INSERT of Database.create_order produces: the schema
defaults give status pending, attempts 0 and NULL everywhere else. -/
def newOrderRow (s : DbState) (oid : String) (sid : Option Nat)
    (otype cname phone addr pin pname : String) (price : Int) (qty : Nat)
    (odate : String) (now : Nat) : Order :=
  { id := s.nextOrderId, order_id := oid, store_id := sid,
    order_type := otype, customer_name := cname, phone := phone,
    address := addr, pincode := pin, product_name := pname,
    price := price, qty := qty, order_date := odate,
    status := "pending", final_status := none, assigned_to := none,
    assigned_at := none, completed_at := none, attempts := 0,
    created_at := now, updated_at := now, edited_customer_name := none,
    edited_phone := none, edited_address := none, edited_pincode := none,
    edited_at := none, shopify_order_number := none,
    shopify_synced_at := none }

/-- Database.create_order (src/database.py lines 291-302): INSERT of one
row; the UNIQUE constraint on order_id makes the INSERT raise when a row
with that external id already exists, leaving the table unchanged. -/
def createOrder (s : DbState) (oid : String) (sid : Option Nat)
    (otype cname phone addr pin pname : String) (price : Int) (qty : Nat)
    (odate : String) (now : Nat) : Except Unit DbState :=
  if s.orders.any (fun o => o.order_id == oid) then
    Except.error ()
  else
    Except.ok { s with
      orders := s.orders ++
        [newOrderRow s oid sid otype cname phone addr pin pname price qty odate now],
      nextOrderId := s.nextOrderId + 1 }

/-- The per-record body of the ingestion loop of fetch_orders
(src/app.py lines 270-288): try create_order, skip the record on any
exception (duplicate suppression). -/
def tryCreateOrder (sid : Option Nat) (otype : String) (now : Nat)
    (s : DbState) (r : RawRecord) : DbState :=
  match createOrder s r.order_id sid otype r.customer_name r.phone
      r.address r.pincode r.product_name r.price r.qty r.order_date now with
  | Except.ok s2 => s2
  | Except.error _ => s

/-- The ingestion loop of fetch_orders over one batch of normalized
records for one resolved store. -/
def ingestBatch (sid : Option Nat) (otype : String) (now : Nat)
    (recs : List RawRecord) (s : DbState) : DbState :=
  recs.foldl (tryCreateOrder sid otype now) s

/-- Database.get_order_by_id: SELECT * FROM orders WHERE order_id = ?. -/
def getOrderById (s : DbState) (oid : String) : Option Order :=
  s.orders.find? (fun o => o.order_id == oid)

/-- Database.update_order_status (src/database.py lines 339-354): when the
final_status argument is truthy the UPDATE also stamps completed_at. -/
def updateOrderStatus (s : DbState) (oid status : String)
    (final_status : Option String) (now : Nat) : DbState :=
  if (final_status.getD "") ≠ "" then
    { s with orders := s.orders.map (fun o =>
        if o.order_id == oid then
          { o with status := status, final_status := final_status,
                   updated_at := now, completed_at := some now }
        else o) }
  else
    { s with orders := s.orders.map (fun o =>
        if o.order_id == oid then
          { o with status := status, updated_at := now }
        else o) }

/-- Database.increment_attempts. -/
def incrementAttempts (s : DbState) (oid : String) (now : Nat) : DbState :=
  { s with orders := s.orders.map (fun o =>
      if o.order_id == oid then
        { o with attempts := o.attempts + 1, updated_at := now }
      else o) }

/-- Database.assign_order (src/database.py lines 329-337). -/
def assignOrder (s : DbState) (oid : String) (caller : Nat) (now : Nat) :
    DbState :=
  { s with orders := s.orders.map (fun o =>
      if o.order_id == oid then
        { o with assigned_to := some caller, assigned_at := some now,
                 status := "assigned", updated_at := now }
      else o) }

/-- Database.create_call_log: INSERT of one immutable row; api_update_status
always calls it without notes. -/
def createCallLog (s : DbState) (orderRef caller : Nat) (phone : String)
    (cs ce : Option String) (cd : Nat) (status : String) : DbState :=
  { s with call_logs := s.call_logs ++
      [{ order_ref := orderRef, caller_id := caller, phone_dialed := phone,
         call_start := cs, call_end := ce, call_duration := cd,
         status := status, log_notes := none }] }

/-- Database.update_order_edits: writes the edited shadow fields; the
shopify_order_number argument is COALESCEd with the existing value. -/
def updateOrderEdits (s : DbState) (oid cname phone addr pin : String)
    (son : Option String) (now : Nat) : DbState :=
  { s with orders := s.orders.map (fun o =>
      if o.order_id == oid then
        { o with edited_customer_name := some cname,
                 edited_phone := some phone,
                 edited_address := some addr,
                 edited_pincode := some pin,
                 edited_at := some now,
                 shopify_order_number :=
                   match son with
                   | some v => some v
                   | none => o.shopify_order_number,
                 updated_at := now }
      else o) }

/-- Database.mark_shopify_synced. -/
def markShopifySynced (s : DbState) (oid : String) (now : Nat) : DbState :=
  { s with orders := s.orders.map (fun o =>
      if o.order_id == oid then { o with shopify_synced_at := some now }
      else o) }

/-- Database.create_assignment: INSERT ... ON CONFLICT DO NOTHING on the
UNIQUE(store_id, caller_id, assigned_date) key. -/
def createAssignment (s : DbState) (store caller : Nat) (date : String) :
    DbState :=
  if s.assignments.any (fun a =>
      a.store_id == store && a.caller_id == caller && a.assigned_date == date)
  then s
  else { s with assignments := s.assignments ++
      [{ store_id := store, caller_id := caller, assigned_date := date }] }

/-- Database.get_assignments_for_date: the query JOINs shopify_stores and
users, so assignment rows whose store or caller row is missing drop out. -/
def getAssignmentsForDate (s : DbState) (date : String) :
    List StoreAssignment :=
  s.assignments.filter (fun a =>
    a.assigned_date == date
      && s.stores.any (fun st => st.id == a.store_id)
      && s.users.contains a.caller_id)

/-- Outcome of one call against an outbound Shopify client: a truthy
response, a falsy response, or a raised exception. -/
inductive SyncOutcome where
  | success
  | failed
  | exn (msg : String)
deriving DecidableEq, Repr

/-- Oracle for ShopifyAPI.add_order_tags of one store client: order id and
tags in, outcome out. -/
def TagClient : Type := String → List String → SyncOutcome

/-- Oracle for ShopifyAPI.update_order_customer_info of one store client. -/
def EditClient : Type := String → String → String → String → String → SyncOutcome

/-- The process-wide shopify_manager.stores map: store name to client. -/
def TagClientMap : Type := List (String × TagClient)

/-- The same map viewed through update_order_customer_info. -/
def EditClientMap : Type := List (String × EditClient)

/-- add_shopify_tag_async (src/app.py lines 882-907): resolves the store
row and the client, calls add_order_tags, and catches every exception; it
performs no write to the database and returns nothing.  The returned
value models only what got logged. -/
def addShopifyTagAsync (clients : TagClientMap) (s : DbState)
    (oid : String) (sid : Option Nat) (tag : String) : SyncOutcome :=
  match sid.bind (fun i => s.stores.find? (fun st => st.id == i)) with
  | none => SyncOutcome.failed
  | some store =>
    match clients.find? (fun p => p.1 == store.name) with
    | none => SyncOutcome.failed
    | some pc => pc.2 oid [tag]

/-- sync_order_to_shopify (src/app.py lines 840-880): resolves the store
row and the client, pushes the edited fields, marks the order synced on a
truthy response, and catches every exception, returning False then. -/
def syncOrderToShopify (clients : EditClientMap) (s : DbState)
    (oid : String) (sid : Option Nat) (cname phone addr pin : String)
    (now : Nat) : DbState × Bool :=
  match sid.bind (fun i => s.stores.find? (fun st => st.id == i)) with
  | none => (s, false)
  | some store =>
    match clients.find? (fun p => p.1 == store.name) with
    | none => (s, false)
    | some pc =>
      match pc.2 oid cname phone addr pin with
      | SyncOutcome.success => (markShopifySynced s oid now, true)
      | _ => (s, false)

/-- The fixed list of valid disposition codes of api_update_status
(src/app.py lines 721-730). -/
def validStatuses : List String :=
  ["confirm on call", "confirm on whatsapp call",
   "confirm on text", "confirm on whatsapp text",
   "cancel on call", "cancel on whatsapp call",
   "cancel on whatsapp text", "cancel on text",
   "not received", "line busy", "call forwarded",
   "incoming not available", "call declined", "language barrier",
   "call not connected", "seen no reply", "undelivered",
   "number not on whatsapp"]

/-- The classification block of api_update_status (src/app.py lines
754-767): substring branches on the disposition code choose the status
written and the Shopify tag emitted; the confirm branch is tested first. -/
def dispositionUpdate (s : DbState) (oid code : String) (now : Nat) :
    DbState × String :=
  if strContains "confirm" (lowerStr code) then
    (updateOrderStatus s oid "confirmed" (some code) now, "COD-Confirmed")
  else if strContains "cancel" (lowerStr code) then
    (updateOrderStatus s oid "cancelled" (some code) now, "COD-Cancelled")
  else
    (updateOrderStatus s oid "assigned" (some code) now, "COD-Retry")

/-- The three persistence calls of api_update_status after validation and
lookup, in source order.  Each Database method opens and commits its own
connection, so each list element is one committed transaction. -/
def dispositionSteps (oid code : String) (orderRef : Nat) (phone : String)
    (caller : Nat) (cs ce : Option String) (cd now : Nat) :
    List (DbState → DbState) :=
  [fun st => incrementAttempts st oid now,
   fun st => createCallLog st orderRef caller phone cs ce cd code,
   fun st => (dispositionUpdate st oid code now).1]

/-- Apply a list of committed transactions in order. -/
def applySteps (fs : List (DbState → DbState)) (s : DbState) : DbState :=
  fs.foldl (fun st f => f st) s

/-- The durable state observable when the process dies after the first
`k` of the three transactions have committed. -/
def dispositionCrash (s : DbState) (oid code : String) (orderRef : Nat)
    (phone : String) (caller : Nat) (cs ce : Option String) (cd now k : Nat) :
    DbState :=
  applySteps ((dispositionSteps oid code orderRef phone caller cs ce cd now).take k) s

/-- Result of the api_update_status endpoint. -/
inductive ApiResult where
  | success
  | invalidStatus
  | orderNotFound
deriving DecidableEq, Repr

/-- api_update_status (src/app.py lines 708-769): validate the code
case-insensitively against validStatuses, look the order up by external
id, then increment attempts, insert the call log, apply the status
classification, and fire the tag sync whose outcome is only logged. -/
def apiUpdateStatus (clients : TagClientMap) (s : DbState)
    (oid code : String) (caller : Nat) (cs ce : Option String)
    (cd now : Nat) : ApiResult × DbState × Option SyncOutcome :=
  if !((validStatuses.map lowerStr).contains (lowerStr code)) then
    (ApiResult.invalidStatus, s, none)
  else
    match getOrderById s oid with
    | none => (ApiResult.orderNotFound, s, none)
    | some order =>
      let s1 := incrementAttempts s oid now
      let s2 := createCallLog s1 order.id caller order.phone cs ce cd code
      let r3 := dispositionUpdate s2 oid code now
      let sync := addShopifyTagAsync clients r3.1 oid order.store_id r3.2
      (ApiResult.success, r3.1, some sync)

/-- Result of the api_edit_order endpoint. -/
inductive EditResult where
  | success (shopify_synced : Bool)
  | missingFields
  | invalidPhone
  | orderNotFound
deriving DecidableEq, Repr

/-- Drop leading whitespace characters. -/
def dropLeadingWs : List Char -> List Char
  | [] => []
  | c :: cs => if c.isWhitespace then dropLeadingWs cs else c :: cs

/-- Python str.strip on ASCII whitespace: drop leading and trailing
whitespace characters. -/
def stripStr (s : String) : String :=
  String.mk (dropLeadingWs ((dropLeadingWs s.toList.reverse).reverse))

/-- The digit count of a phone string after stripping non-digits. -/
def phoneDigits (p : String) : Nat := (p.toList.filter Char.isDigit).length

/-- api_edit_order (src/app.py lines 771-838): strip the inputs, reject
when order id, name, phone or address is empty (pincode presence is not
checked), truncate name, address and pincode, reject when the digit count
of the phone is below 10 or above 15, look the order up, persist the
edited shadow fields, then push to Shopify best-effort. -/
def apiEditOrder (clients : EditClientMap) (s : DbState)
    (oid rawName rawPhone rawAddr rawPin : String) (now : Nat) :
    EditResult × DbState :=
  if oid == "" || stripStr rawName == "" || stripStr rawPhone == "" || stripStr rawAddr == "" then
    (EditResult.missingFields, s)
  else if phoneDigits (stripStr rawPhone) < 10 || phoneDigits (stripStr rawPhone) > 15 then
    (EditResult.invalidPhone, s)
  else
    match getOrderById s oid with
    | none => (EditResult.orderNotFound, s)
    | some order =>
      (EditResult.success (syncOrderToShopify clients
         (updateOrderEdits s oid (truncate 200 (stripStr rawName)) (stripStr rawPhone)
           (truncate 500 (stripStr rawAddr)) (truncate 10 (stripStr rawPin)) none now)
         oid order.store_id (truncate 200 (stripStr rawName)) (stripStr rawPhone)
         (truncate 500 (stripStr rawAddr)) (truncate 10 (stripStr rawPin)) now).2,
       (syncOrderToShopify clients
         (updateOrderEdits s oid (truncate 200 (stripStr rawName)) (stripStr rawPhone)
           (truncate 500 (stripStr rawAddr)) (truncate 10 (stripStr rawPin)) none now)
         oid order.store_id (truncate 200 (stripStr rawName)) (stripStr rawPhone)
         (truncate 500 (stripStr rawAddr)) (truncate 10 (stripStr rawPin)) now).1)

/-- distribute_orders (src/app.py lines 355-383): no-op without date
assignments or pending orders; otherwise group the assignment rows by
caller in first-appearance order (a Python dict) and, for each pending
order, assign the first caller whose store list holds its store. -/
def groupByCaller (asgn : List StoreAssignment) : List (Nat × List Nat) :=
  asgn.foldl (fun acc a =>
    if acc.any (fun p => p.1 == a.caller_id) then
      acc.map (fun p =>
        if p.1 == a.caller_id then (p.1, p.2 ++ [a.store_id]) else p)
    else acc ++ [(a.caller_id, [a.store_id])]) []

/-- The first caller whose store list holds the store of the order; a NULL
store_id matches nobody (Python: None in a list of ints is False). -/
def findCaller (ca : List (Nat × List Nat)) (sid : Option Nat) : Option Nat :=
  match sid with
  | none => none
  | some i => (ca.find? (fun p => p.2.contains i)).map (fun p => p.1)

/-- distribute_orders itself, with the calendar date and clock explicit. -/
def distributeOrders (s : DbState) (today : String) (now : Nat) : DbState :=
  if (getAssignmentsForDate s today).isEmpty then s
  else if (s.orders.filter (fun o => o.status == "pending")).isEmpty then s
  else
    (s.orders.filter (fun o => o.status == "pending")).foldl
      (fun st o =>
        match findCaller (groupByCaller (getAssignmentsForDate s today))
            o.store_id with
        | some caller => assignOrder st o.order_id caller now
        | none => st) s

/-- assign_all_to_caller (src/app.py lines 1008-1035): UPDATE orders SET
assigned_to = ?, status = 'assigned' WHERE 1=1. -/
def assignAllToCaller (s : DbState) (caller : Nat) : DbState :=
  { s with orders := s.orders.map (fun o =>
      { o with assigned_to := some caller, status := "assigned" }) }

/-- reassign_caller (src/app.py lines 948-980): UPDATE orders SET
assigned_to = ? WHERE assigned_to = ?. -/
def reassignCaller (s : DbState) (fromC toC : Nat) : DbState :=
  { s with orders := s.orders.map (fun o =>
      if o.assigned_to == some fromC then { o with assigned_to := some toC }
      else o) }

/-- delete_all_orders (src/app.py lines 983-1006): DELETE FROM orders. -/
def deleteAllOrders (s : DbState) : DbState := { s with orders := [] }

/-- One external trigger of the engine.  Store and user provisioning carry
their generated ids explicitly. -/
inductive EngineOp where
  | ingest (sid : Option Nat) (otype : String) (now : Nat)
      (recs : List RawRecord)
  | distribute (today : String) (now : Nat)
  | updateStatus (clients : TagClientMap) (oid code : String) (caller : Nat)
      (cs ce : Option String) (cd now : Nat)
  | editOrder (clients : EditClientMap) (oid rawName rawPhone rawAddr rawPin : String)
      (now : Nat)
  | newAssignment (store caller : Nat) (date : String)
  | newStore (sid : Nat) (name : String)
  | newUser (uid : Nat)
  | assignAll (caller : Nat)
  | reassign (fromC toC : Nat)
  | deleteAll

/-- Effect of one engine operation on the durable store. -/
def stepOp : EngineOp → DbState → DbState
  | EngineOp.ingest sid otype now recs, s => ingestBatch sid otype now recs s
  | EngineOp.distribute d n, s => distributeOrders s d n
  | EngineOp.updateStatus cl oid code c cs ce cd now, s =>
      (apiUpdateStatus cl s oid code c cs ce cd now).2.1
  | EngineOp.editOrder cl oid n p a pin now, s =>
      (apiEditOrder cl s oid n p a pin now).2
  | EngineOp.newAssignment st c d, s => createAssignment s st c d
  | EngineOp.newStore i n, s => { s with stores := s.stores ++ [⟨i, n⟩] }
  | EngineOp.newUser u, s => { s with users := s.users ++ [u] }
  | EngineOp.assignAll c, s => assignAllToCaller s c
  | EngineOp.reassign f t, s => reassignCaller s f t
  | EngineOp.deleteAll, s => deleteAllOrders s

/-- Run a sequence of engine operations. -/
def runOps (ops : List EngineOp) (s : DbState) : DbState :=
  ops.foldl (fun st op => stepOp op st) s

/-- No order row carries the status value calling. -/
def noCalling (s : DbState) : Bool :=
  s.orders.all (fun o => !(o.status == "calling"))

/-! ### Helper lemmas about the primitive operations -/

theorem call_logs_incrementAttempts (s : DbState) (oid : String) (now : Nat) :
    (incrementAttempts s oid now).call_logs = s.call_logs := rfl

theorem call_logs_updateOrderStatus (s : DbState) (oid st : String)
    (fs : Option String) (now : Nat) :
    (updateOrderStatus s oid st fs now).call_logs = s.call_logs := by
  unfold updateOrderStatus
  split <;> rfl

theorem orders_createCallLog (s : DbState) (orderRef caller : Nat)
    (phone : String) (cs ce : Option String) (cd : Nat) (st : String) :
    (createCallLog s orderRef caller phone cs ce cd st).orders = s.orders := rfl

theorem call_logs_createCallLog (s : DbState) (orderRef caller : Nat)
    (phone : String) (cs ce : Option String) (cd : Nat) (st : String) :
    (createCallLog s orderRef caller phone cs ce cd st).call_logs =
      s.call_logs ++ [{ order_ref := orderRef, caller_id := caller,
                        phone_dialed := phone, call_start := cs, call_end := ce,
                        call_duration := cd, status := st, log_notes := none }] := rfl

/-- find? by external id commutes with a row map that preserves the
external id. -/
theorem find_map_id_pres (l : List Order) (f : Order → Order)
    (hf : ∀ o, (f o).order_id = o.order_id) (oid : String) :
    (l.map f).find? (fun o => o.order_id == oid) =
      (l.find? (fun o => o.order_id == oid)).map f := by
  induction l with
  | nil => rfl
  | cons a t ih =>
    cases h : (a.order_id == oid) with
    | true =>
      simp only [List.map_cons, List.find?, hf a, h]
      rfl
    | false =>
      simp only [List.map_cons, List.find?, hf a, h]
      exact ih

theorem getOrderById_incrementAttempts (s : DbState) (oid qid : String)
    (now : Nat) :
    getOrderById (incrementAttempts s oid now) qid =
      (getOrderById s qid).map (fun o =>
        if o.order_id == oid then
          { o with attempts := o.attempts + 1, updated_at := now }
        else o) := by
  unfold getOrderById incrementAttempts
  refine find_map_id_pres _ _ (fun o => ?_) _
  by_cases h : (o.order_id == oid) = true
  · rw [if_pos h]
  · rw [if_neg h]

theorem getOrderById_updateOrderStatus (s : DbState) (oid st : String)
    (fs : Option String) (now : Nat) (qid : String)
    (hfs : (fs.getD "") ≠ "") :
    getOrderById (updateOrderStatus s oid st fs now) qid =
      (getOrderById s qid).map (fun o =>
        if o.order_id == oid then
          { o with status := st, final_status := fs,
                   updated_at := now, completed_at := some now }
        else o) := by
  unfold getOrderById updateOrderStatus
  rw [if_pos hfs]
  refine find_map_id_pres _ _ (fun o => ?_) _
  by_cases h : (o.order_id == oid) = true
  · rw [if_pos h]
  · rw [if_neg h]

theorem status_updateOrderStatus (s : DbState) (oid st : String)
    (fs : Option String) (now : Nat) :
    ∀ o2 ∈ (updateOrderStatus s oid st fs now).orders,
      o2.order_id = oid → o2.status = st := by
  intro o2 h2 hid
  unfold updateOrderStatus at h2
  split at h2 <;>
  · simp only [List.mem_map] at h2
    obtain ⟨o3, _, rfl⟩ := h2
    by_cases h : (o3.order_id == oid) = true
    · simp [h]
    · rw [if_neg h] at hid
      exact absurd (beq_iff_eq.2 hid) h

theorem getOrderById_createCallLog (s : DbState) (orderRef caller : Nat)
    (phone : String) (cs ce : Option String) (cd : Nat) (st qid : String) :
    getOrderById (createCallLog s orderRef caller phone cs ce cd st) qid =
      getOrderById s qid := rfl

/-- Every code of validStatuses is nonempty, so a validated code is a
truthy final_status value. -/
theorem valid_code_ne_empty (code : String)
    (hv : (validStatuses.map lowerStr).contains (lowerStr code) = true) :
    code ≠ "" := by
  intro h
  subst h
  exact absurd hv (by decide)

theorem find_sat (p : Order → Bool) :
    ∀ (l : List Order) (a : Order), l.find? p = some a → p a = true := by
  intro l
  induction l with
  | nil => intro a h; cases h
  | cons b t ih =>
    intro a h
    by_cases hb : p b = true
    · rw [List.find?_cons_of_pos _ hb] at h
      cases h
      exact hb
    · rw [List.find?_cons_of_neg _ hb] at h
      exact ih a h

theorem eq_oid_of_getOrderById (s : DbState) (oid : String) (o : Order)
    (hf : getOrderById s oid = some o) : o.order_id = oid := by
  have hf2 : List.find? (fun x => x.order_id == oid) s.orders = some o := hf
  exact beq_iff_eq.1 (find_sat (fun x => x.order_id == oid) s.orders o hf2)

theorem getOrderById_updateOrderStatus_self (s : DbState) (oid st : String)
    (code : String) (now : Nat) (o : Order)
    (hf : getOrderById s oid = some o) (hcode : code ≠ "") :
    getOrderById (updateOrderStatus s oid st (some code) now) oid =
      some { o with status := st, final_status := some code,
                    updated_at := now, completed_at := some now } := by
  rw [getOrderById_updateOrderStatus s oid st (some code) now oid
        (by simpa using hcode), hf]
  have hp := eq_oid_of_getOrderById s oid o hf
  simp [hp]

theorem getOrderById_incrementAttempts_self (s : DbState) (oid : String)
    (now : Nat) (o : Order) (hf : getOrderById s oid = some o) :
    getOrderById (incrementAttempts s oid now) oid =
      some { o with attempts := o.attempts + 1, updated_at := now } := by
  rw [getOrderById_incrementAttempts, hf]
  have hp := eq_oid_of_getOrderById s oid o hf
  simp [hp]

/-- The success path of api_update_status, spelled out: validation passed
and the order was found. -/
theorem apiUpdateStatus_valid_found (clients : TagClientMap) (s : DbState)
    (oid code : String) (caller : Nat) (cs ce : Option String) (cd now : Nat)
    (o : Order)
    (hv : (validStatuses.map lowerStr).contains (lowerStr code) = true)
    (hf : getOrderById s oid = some o) :
    apiUpdateStatus clients s oid code caller cs ce cd now =
      (ApiResult.success,
       (dispositionUpdate (createCallLog (incrementAttempts s oid now)
          o.id caller o.phone cs ce cd code) oid code now).1,
       some (addShopifyTagAsync clients
          (dispositionUpdate (createCallLog (incrementAttempts s oid now)
             o.id caller o.phone cs ce cd code) oid code now).1
          oid o.store_id
          (dispositionUpdate (createCallLog (incrementAttempts s oid now)
             o.id caller o.phone cs ce cd code) oid code now).2)) := by
  unfold apiUpdateStatus
  rw [hv]
  simp [hf]

theorem dispositionUpdate_confirm_eq (s : DbState) (oid code : String)
    (now : Nat) (h1 : strContains "confirm" (lowerStr code) = true) :
    dispositionUpdate s oid code now =
      (updateOrderStatus s oid "confirmed" (some code) now, "COD-Confirmed") := by
  unfold dispositionUpdate
  rw [if_pos h1]

theorem dispositionUpdate_cancel_eq (s : DbState) (oid code : String)
    (now : Nat) (h1 : strContains "confirm" (lowerStr code) = false)
    (h2 : strContains "cancel" (lowerStr code) = true) :
    dispositionUpdate s oid code now =
      (updateOrderStatus s oid "cancelled" (some code) now, "COD-Cancelled") := by
  unfold dispositionUpdate
  rw [if_neg (by simp [h1]), if_pos h2]

theorem dispositionUpdate_retry_eq (s : DbState) (oid code : String)
    (now : Nat) (h1 : strContains "confirm" (lowerStr code) = false)
    (h2 : strContains "cancel" (lowerStr code) = false) :
    dispositionUpdate s oid code now =
      (updateOrderStatus s oid "assigned" (some code) now, "COD-Retry") := by
  unfold dispositionUpdate
  rw [if_neg (by simp [h1]), if_neg (by simp [h2])]

theorem call_logs_dispositionUpdate (s : DbState) (oid code : String)
    (now : Nat) :
    (dispositionUpdate s oid code now).1.call_logs = s.call_logs := by
  by_cases h1 : strContains "confirm" (lowerStr code) = true
  · rw [dispositionUpdate_confirm_eq s oid code now h1]
    exact call_logs_updateOrderStatus _ _ _ _ _
  · by_cases h2 : strContains "cancel" (lowerStr code) = true
    · rw [dispositionUpdate_cancel_eq s oid code now
            (Bool.eq_false_iff.2 h1) h2]
      exact call_logs_updateOrderStatus _ _ _ _ _
    · rw [dispositionUpdate_retry_eq s oid code now
            (Bool.eq_false_iff.2 h1) (Bool.eq_false_iff.2 h2)]
      exact call_logs_updateOrderStatus _ _ _ _ _

theorem dispositionUpdate_find_status (s2 : DbState) (oid code : String)
    (now : Nat) (o2 : Order) (hf2 : getOrderById s2 oid = some o2)
    (hcode : code ≠ "") :
    ∃ st2 : String,
      getOrderById (dispositionUpdate s2 oid code now).1 oid =
        some { o2 with status := st2, final_status := some code,
                       updated_at := now, completed_at := some now } := by
  by_cases h1 : strContains "confirm" (lowerStr code) = true
  · rw [dispositionUpdate_confirm_eq s2 oid code now h1]
    exact ⟨"confirmed",
      getOrderById_updateOrderStatus_self s2 oid _ code now o2 hf2 hcode⟩
  · by_cases h2 : strContains "cancel" (lowerStr code) = true
    · rw [dispositionUpdate_cancel_eq s2 oid code now (Bool.eq_false_iff.2 h1) h2]
      exact ⟨"cancelled",
        getOrderById_updateOrderStatus_self s2 oid _ code now o2 hf2 hcode⟩
    · rw [dispositionUpdate_retry_eq s2 oid code now
            (Bool.eq_false_iff.2 h1) (Bool.eq_false_iff.2 h2)]
      exact ⟨"assigned",
        getOrderById_updateOrderStatus_self s2 oid _ code now o2 hf2 hcode⟩

/-- The order row after the call-log commit of the success path. -/
theorem mid_state_find (s : DbState) (oid code : String) (caller : Nat)
    (cs ce : Option String) (cd now : Nat) (o : Order)
    (hf : getOrderById s oid = some o) :
    getOrderById (createCallLog (incrementAttempts s oid now)
        o.id caller o.phone cs ce cd code) oid =
      some { o with attempts := o.attempts + 1, updated_at := now } := by
  rw [getOrderById_createCallLog]
  exact getOrderById_incrementAttempts_self s oid now o hf

/-- Shared characterization of the retry path of api_update_status: a
validated non-terminal code on a found order yields status assigned,
final_status the code, attempts incremented and completed_at stamped. -/
theorem retry_path_find (clients : TagClientMap) (s : DbState)
    (oid code : String) (caller : Nat) (cs ce : Option String) (cd now : Nat)
    (o : Order)
    (hv : (validStatuses.map lowerStr).contains (lowerStr code) = true)
    (hf : getOrderById s oid = some o)
    (hc1 : strContains "confirm" (lowerStr code) = false)
    (hc2 : strContains "cancel" (lowerStr code) = false) :
    getOrderById (apiUpdateStatus clients s oid code caller cs ce cd now).2.1 oid =
      some { o with attempts := o.attempts + 1, status := "assigned",
                    final_status := some code, updated_at := now,
                    completed_at := some now } := by
  rw [apiUpdateStatus_valid_found clients s oid code caller cs ce cd now o hv hf]
  show getOrderById (dispositionUpdate _ oid code now).1 oid = _
  rw [dispositionUpdate_retry_eq _ oid code now hc1 hc2]
  show getOrderById (updateOrderStatus _ oid "assigned" (some code) now) oid = _
  rw [getOrderById_updateOrderStatus_self _ oid _ code now _
        (mid_state_find s oid code caller cs ce cd now o hf)
        (valid_code_ne_empty code hv)]

/-! ### Concrete fixtures for witnesses and counterexamples -/

/-- A minimal order row used by the concrete scenarios. -/
def mkOrder (iid : Nat) (oid : String) (sid : Option Nat) (st : String) :
    Order :=
  { id := iid, order_id := oid, store_id := sid, order_type := "cod",
    customer_name := "Asha", phone := "9876543210",
    address := "12 Main Street", pincode := "110001",
    product_name := "Widget", price := 499, qty := 1,
    order_date := "2026-01-01", status := st, final_status := none,
    assigned_to := none, assigned_at := none, completed_at := none,
    attempts := 0, created_at := 0, updated_at := 0,
    edited_customer_name := none, edited_phone := none,
    edited_address := none, edited_pincode := none, edited_at := none,
    shopify_order_number := none, shopify_synced_at := none }

def noTagClients : TagClientMap := []

def noEditClients : EditClientMap := []

/-- A tag client that raises on every call. -/
def throwingTagClients : TagClientMap :=
  [("Indian Goods Hub", fun _ _ => SyncOutcome.exn "network down")]

def oC2 : Order := mkOrder 1 "ORD-2" (some 1) "confirmed"

def sC2 : DbState :=
  { orders := [oC2], call_logs := [], assignments := [],
    stores := [{ id := 1, name := "Indian Goods Hub" }], users := [],
    nextOrderId := 2 }

def oC3 : Order := mkOrder 1 "ORD-3" (some 1) "assigned"

def sC3 : DbState :=
  { orders := [oC3], call_logs := [], assignments := [],
    stores := [{ id := 1, name := "Indian Goods Hub" }], users := [],
    nextOrderId := 2 }

def oC4 : Order := mkOrder 1 "ORD-4" (some 1) "assigned"

def sC4 : DbState :=
  { orders := [oC4], call_logs := [], assignments := [],
    stores := [{ id := 1, name := "Indian Goods Hub" }], users := [],
    nextOrderId := 2 }

def oC6 : Order := mkOrder 1 "ORD-6" (some 1) "assigned"

def sC6 : DbState :=
  { orders := [oC6], call_logs := [], assignments := [],
    stores := [{ id := 1, name := "Indian Goods Hub" }], users := [],
    nextOrderId := 2 }

def oC7 : Order := mkOrder 1 "ORD-7" (some 1) "assigned"

def sC7 : DbState :=
  { orders := [oC7], call_logs := [], assignments := [],
    stores := [{ id := 1, name := "Indian Goods Hub" }], users := [],
    nextOrderId := 2 }

def oC9 : Order := mkOrder 1 "ORD-9" (some 1) "assigned"

def sC9 : DbState :=
  { orders := [oC9], call_logs := [], assignments := [],
    stores := [{ id := 1, name := "Indian Goods Hub" }], users := [],
    nextOrderId := 2 }

/-! ### Claims -/

/-- C2 counterexample: the claim says confirmed is terminal, but submitting
the accepted non-terminal disposition "line busy" for an order whose
status is confirmed moves its status to assigned. -/
theorem c2_counterexample :
    sC2.orders.map Order.status = ["confirmed"] ∧
    ((apiUpdateStatus noTagClients sC2 "ORD-2" "line busy" 7 none none 0 5).2.1).orders.map
        Order.status = ["assigned"] := by
  decide

/-- C2 (amended): confirmed and cancelled are not terminal.
api_update_status performs no terminal-state guard: an accepted
non-terminal disposition code submitted for an order whose status is
confirmed or cancelled changes that status to assigned (also incrementing
attempts and stamping final_status and completed_at). -/
theorem c2_terminal_not_enforced (clients : TagClientMap) (s : DbState)
    (oid code : String) (caller : Nat) (cs ce : Option String) (cd now : Nat)
    (o : Order)
    (hv : (validStatuses.map lowerStr).contains (lowerStr code) = true)
    (hf : getOrderById s oid = some o)
    (hterm : o.status = "confirmed" ∨ o.status = "cancelled")
    (hc1 : strContains "confirm" (lowerStr code) = false)
    (hc2 : strContains "cancel" (lowerStr code) = false) :
    getOrderById (apiUpdateStatus clients s oid code caller cs ce cd now).2.1 oid =
      some { o with attempts := o.attempts + 1, status := "assigned",
                    final_status := some code, updated_at := now,
                    completed_at := some now } ∧
    ("assigned" : String) ≠ o.status := by
  refine ⟨retry_path_find clients s oid code caller cs ce cd now o hv hf hc1 hc2, ?_⟩
  rcases hterm with h | h <;> rw [h] <;> decide

/-- C2 witness: the amended theorem applied to the concrete confirmed
order of the counterexample. -/
theorem c2_witness :
    getOrderById (apiUpdateStatus noTagClients sC2 "ORD-2" "line busy" 7 none none 0 5).2.1 "ORD-2" =
      some { oC2 with attempts := oC2.attempts + 1, status := "assigned",
                      final_status := some "line busy", updated_at := 5,
                      completed_at := some 5 } ∧
    ("assigned" : String) ≠ oC2.status :=
  c2_terminal_not_enforced noTagClients sC2 "ORD-2" "line busy" 7 none none 0 5
    oC2 (by decide) (by decide) (Or.inl (by decide)) (by decide) (by decide)

/-- C3 counterexample: the claim says the three local effects commit as one
atomic unit, so any crash point shows either the initial or the final
state; but the state after the first of the three separately committed
transactions (attempts incremented, no call-log row, status unchanged) is
neither. -/
theorem c3_counterexample :
    ¬(dispositionCrash sC3 "ORD-3" "line busy" 1 "9876543210" 7 none none 0 5 1 = sC3 ∨
      dispositionCrash sC3 "ORD-3" "line busy" 1 "9876543210" 7 none none 0 5 1 =
        dispositionCrash sC3 "ORD-3" "line busy" 1 "9876543210" 7 none none 0 5 3) := by
  decide

/-- C3 (amended): the three local effects of an accepted disposition are
applied in three separate transactions, committed in the order attempts
increment, call-log insert, status update; a persistence failure after the
first commit leaves the partial state attempts incremented with no
call-log row and the status unchanged, while completing all three commits
yields exactly the state api_update_status produces. -/
theorem c3_three_transactions (clients : TagClientMap) (s : DbState)
    (oid code : String) (caller : Nat) (cs ce : Option String) (cd now : Nat)
    (o : Order)
    (hv : (validStatuses.map lowerStr).contains (lowerStr code) = true)
    (hf : getOrderById s oid = some o) :
    (dispositionCrash s oid code o.id o.phone caller cs ce cd now 1).call_logs =
      s.call_logs ∧
    getOrderById (dispositionCrash s oid code o.id o.phone caller cs ce cd now 1) oid =
      some { o with attempts := o.attempts + 1, updated_at := now } ∧
    dispositionCrash s oid code o.id o.phone caller cs ce cd now 3 =
      (apiUpdateStatus clients s oid code caller cs ce cd now).2.1 := by
  refine ⟨rfl, ?_, ?_⟩
  · show getOrderById (incrementAttempts s oid now) oid = _
    exact getOrderById_incrementAttempts_self s oid now o hf
  · rw [apiUpdateStatus_valid_found clients s oid code caller cs ce cd now o hv hf]
    rfl

/-- C3 witness: the amended theorem applied to the concrete state of the
counterexample. -/
theorem c3_witness :
    (dispositionCrash sC3 "ORD-3" "line busy" 1 "9876543210" 7 none none 0 5 1).call_logs =
      sC3.call_logs ∧
    getOrderById (dispositionCrash sC3 "ORD-3" "line busy" 1 "9876543210" 7 none none 0 5 1) "ORD-3" =
      some { oC3 with attempts := oC3.attempts + 1, updated_at := 5 } ∧
    dispositionCrash sC3 "ORD-3" "line busy" 1 "9876543210" 7 none none 0 5 3 =
      (apiUpdateStatus noTagClients sC3 "ORD-3" "line busy" 7 none none 0 5).2.1 :=
  c3_three_transactions noTagClients sC3 "ORD-3" "line busy" 7 none none 0 5 oC3
    (by decide) (by decide)

/-- C4 counterexample: the claim says a retry disposition leaves
completed_at unset, but submitting the accepted non-terminal code
"line busy" stamps completed_at, because the retry branch passes the code
as a truthy final_status to update_order_status. -/
theorem c4_counterexample :
    sC4.orders.map Order.completed_at = [none] ∧
    ((apiUpdateStatus noTagClients sC4 "ORD-4" "line busy" 7 none none 0 5).2.1).orders.map
        Order.completed_at = [some 5] := by
  decide

/-- C4 (amended): for every accepted disposition code containing neither
confirm nor cancel, the disposition operation sets the status of the order
to assigned and final_status to the code, and also stamps completed_at
with the time of the update (it is not left unset). -/
theorem c4_retry_disposition (clients : TagClientMap) (s : DbState)
    (oid code : String) (caller : Nat) (cs ce : Option String) (cd now : Nat)
    (o : Order)
    (hv : (validStatuses.map lowerStr).contains (lowerStr code) = true)
    (hf : getOrderById s oid = some o)
    (hc1 : strContains "confirm" (lowerStr code) = false)
    (hc2 : strContains "cancel" (lowerStr code) = false) :
    getOrderById (apiUpdateStatus clients s oid code caller cs ce cd now).2.1 oid =
      some { o with attempts := o.attempts + 1, status := "assigned",
                    final_status := some code, updated_at := now,
                    completed_at := some now } :=
  retry_path_find clients s oid code caller cs ce cd now o hv hf hc1 hc2

/-- C4 witness: the amended theorem at the concrete retry scenario. -/
theorem c4_witness :
    getOrderById (apiUpdateStatus noTagClients sC4 "ORD-4" "line busy" 7 none none 0 5).2.1 "ORD-4" =
      some { oC4 with attempts := oC4.attempts + 1, status := "assigned",
                      final_status := some "line busy", updated_at := 5,
                      completed_at := some 5 } :=
  c4_retry_disposition noTagClients sC4 "ORD-4" "line busy" 7 none none 0 5 oC4
    (by decide) (by decide) (by decide) (by decide)

/-- C6: a disposition submission whose code does not case-insensitively
match any entry of the fixed list validStatuses is rejected as invalid and
the whole store is returned unchanged: attempts, call logs, statuses and
final statuses are exactly those of the input state. -/
theorem c6_invalid_code_no_change (clients : TagClientMap) (s : DbState)
    (oid code : String) (caller : Nat) (cs ce : Option String) (cd now : Nat)
    (h : (validStatuses.map lowerStr).contains (lowerStr code) = false) :
    apiUpdateStatus clients s oid code caller cs ce cd now =
      (ApiResult.invalidStatus, s, none) := by
  unfold apiUpdateStatus
  rw [h]
  simp

/-- C6 witness: the disposition "Bogus Code" of scenario E is rejected with
no state change. -/
theorem c6_witness :
    apiUpdateStatus noTagClients sC6 "ORD-6" "Bogus Code" 7 none none 0 5 =
      (ApiResult.invalidStatus, sC6, none) :=
  c6_invalid_code_no_change noTagClients sC6 "ORD-6" "Bogus Code" 7 none none 0 5
    (by decide)

/-- C7: for an accepted disposition on an existing order, the outcome of
the outbound tag sync (including a client that raises) does not change the
result or the committed local state: the operation succeeds, the local
state is the same under any two client maps, the call-log row is written,
attempts is incremented and final_status committed regardless. -/
theorem c7_sync_failure_never_blocks (cl1 cl2 : TagClientMap) (s : DbState)
    (oid code : String) (caller : Nat) (cs ce : Option String) (cd now : Nat)
    (o : Order)
    (hv : (validStatuses.map lowerStr).contains (lowerStr code) = true)
    (hf : getOrderById s oid = some o) :
    (apiUpdateStatus cl1 s oid code caller cs ce cd now).1 = ApiResult.success ∧
    (apiUpdateStatus cl1 s oid code caller cs ce cd now).2.1 =
      (apiUpdateStatus cl2 s oid code caller cs ce cd now).2.1 ∧
    (apiUpdateStatus cl1 s oid code caller cs ce cd now).2.1.call_logs =
      s.call_logs ++ [{ order_ref := o.id, caller_id := caller,
                        phone_dialed := o.phone, call_start := cs,
                        call_end := ce, call_duration := cd,
                        status := code, log_notes := none }] ∧
    (getOrderById (apiUpdateStatus cl1 s oid code caller cs ce cd now).2.1 oid).map
        Order.attempts = some (o.attempts + 1) ∧
    (getOrderById (apiUpdateStatus cl1 s oid code caller cs ce cd now).2.1 oid).map
        Order.final_status = some (some code) := by
  rw [apiUpdateStatus_valid_found cl1 s oid code caller cs ce cd now o hv hf,
      apiUpdateStatus_valid_found cl2 s oid code caller cs ce cd now o hv hf]
  obtain ⟨st2, hst⟩ := dispositionUpdate_find_status
    (createCallLog (incrementAttempts s oid now) o.id caller o.phone cs ce cd code)
    oid code now { o with attempts := o.attempts + 1, updated_at := now }
    (mid_state_find s oid code caller cs ce cd now o hf)
    (valid_code_ne_empty code hv)
  refine ⟨rfl, rfl, ?_, ?_, ?_⟩
  · show (dispositionUpdate _ oid code now).1.call_logs = _
    rw [call_logs_dispositionUpdate]
    rfl
  · show (getOrderById (dispositionUpdate _ oid code now).1 oid).map Order.attempts = _
    rw [hst]
    rfl
  · show (getOrderById (dispositionUpdate _ oid code now).1 oid).map Order.final_status = _
    rw [hst]
    rfl

/-- C7 witness: the theorem at a concrete state, comparing a client map
whose client raises with an empty client map. -/
theorem c7_witness :
    (apiUpdateStatus throwingTagClients sC7 "ORD-7" "line busy" 7 none none 0 5).1 =
      ApiResult.success ∧
    (apiUpdateStatus throwingTagClients sC7 "ORD-7" "line busy" 7 none none 0 5).2.1 =
      (apiUpdateStatus noTagClients sC7 "ORD-7" "line busy" 7 none none 0 5).2.1 ∧
    (apiUpdateStatus throwingTagClients sC7 "ORD-7" "line busy" 7 none none 0 5).2.1.call_logs =
      sC7.call_logs ++ [{ order_ref := oC7.id, caller_id := 7,
                          phone_dialed := oC7.phone, call_start := none,
                          call_end := none, call_duration := 0,
                          status := "line busy", log_notes := none }] ∧
    (getOrderById (apiUpdateStatus throwingTagClients sC7 "ORD-7" "line busy" 7 none none 0 5).2.1 "ORD-7").map
        Order.attempts = some (oC7.attempts + 1) ∧
    (getOrderById (apiUpdateStatus throwingTagClients sC7 "ORD-7" "line busy" 7 none none 0 5).2.1 "ORD-7").map
        Order.final_status = some (some "line busy") :=
  c7_sync_failure_never_blocks throwingTagClients noTagClients sC7 "ORD-7"
    "line busy" 7 none none 0 5 oC7 (by decide) (by decide)

/-- C9: in the classification block of api_update_status the confirm branch
is tested first, so a disposition code containing both the substring
confirm and the substring cancel (case-insensitively) is classified as a
confirmation: every row with the submitted external id ends with status
confirmed, and the emitted tag is COD-Confirmed, never COD-Cancelled. -/
theorem c9_confirm_branch_wins (s : DbState) (oid code : String) (now : Nat)
    (h1 : strContains "confirm" (lowerStr code) = true)
    (_h2 : strContains "cancel" (lowerStr code) = true) :
    (dispositionUpdate s oid code now).2 = "COD-Confirmed" ∧
    ∀ o2 ∈ (dispositionUpdate s oid code now).1.orders,
      o2.order_id = oid → o2.status = "confirmed" := by
  rw [dispositionUpdate_confirm_eq s oid code now h1]
  exact ⟨rfl, status_updateOrderStatus s oid "confirmed" (some code) now⟩

/-- C9 witness: the hypothetical code containing both substrings at a
concrete state. -/
theorem c9_witness :
    (dispositionUpdate sC9 "ORD-9" "Confirm after Cancel request" 5).2 =
      "COD-Confirmed" ∧
    ∀ o2 ∈ (dispositionUpdate sC9 "ORD-9" "Confirm after Cancel request" 5).1.orders,
      o2.order_id = "ORD-9" → o2.status = "confirmed" :=
  c9_confirm_branch_wins sC9 "ORD-9" "Confirm after Cancel request" 5
    (by decide) (by decide)

/-- The inserted row abbreviated for a raw record. -/
def newOrderOf (sid : Option Nat) (otype : String) (now : Nat)
    (s : DbState) (r : RawRecord) : Order :=
  newOrderRow s r.order_id sid otype r.customer_name r.phone r.address
    r.pincode r.product_name r.price r.qty r.order_date now

/-- One ingestion step either suppresses a duplicate external id wholly, or
appends exactly one fresh pending row. -/
theorem tryCreateOrder_cases (sid : Option Nat) (otype : String) (now : Nat)
    (s : DbState) (r : RawRecord) :
    (s.orders.any (fun o => o.order_id == r.order_id) = true ∧
       tryCreateOrder sid otype now s r = s) ∨
    (s.orders.any (fun o => o.order_id == r.order_id) = false ∧
       tryCreateOrder sid otype now s r =
         { s with orders := s.orders ++ [newOrderOf sid otype now s r],
                  nextOrderId := s.nextOrderId + 1 }) := by
  by_cases hd : s.orders.any (fun o => o.order_id == r.order_id) = true
  · left
    refine ⟨hd, ?_⟩
    unfold tryCreateOrder createOrder
    rw [if_pos hd]
  · right
    refine ⟨Bool.eq_false_iff.2 hd, ?_⟩
    unfold tryCreateOrder createOrder
    rw [if_neg hd]
    rfl

/-- An ingestion step neither removes nor alters nor duplicates the rows of
an external id already present. -/
theorem tryCreateOrder_keeps (sid : Option Nat) (otype : String) (now : Nat)
    (s : DbState) (r : RawRecord) (eid : String)
    (h : s.orders.any (fun o => o.order_id == eid) = true) :
    (tryCreateOrder sid otype now s r).orders.any (fun o => o.order_id == eid) = true ∧
    (tryCreateOrder sid otype now s r).orders.filter (fun o => o.order_id == eid) =
      s.orders.filter (fun o => o.order_id == eid) := by
  rcases tryCreateOrder_cases sid otype now s r with ⟨_, he⟩ | ⟨hd, he⟩
  · rw [he]
    exact ⟨h, rfl⟩
  · rw [he]
    have hne : ((newOrderOf sid otype now s r).order_id == eid) = false := by
      cases hq : ((newOrderOf sid otype now s r).order_id == eid) with
      | false => rfl
      | true =>
        exfalso
        have heq : r.order_id = eid := beq_iff_eq.1 hq
        obtain ⟨o, ho, hoe⟩ := List.any_eq_true.1 h
        have hany : s.orders.any (fun o => o.order_id == r.order_id) = true :=
          List.any_eq_true.2 ⟨o, ho, by rw [heq]; exact hoe⟩
        rw [hany] at hd
        exact absurd hd (by decide)
    constructor
    · simp only [List.any_append, h, Bool.true_or]
    · simp only [List.filter_append, List.filter_cons, hne,
                 List.filter_nil, List.append_nil]
      simp

/-- An ingestion step preserves pairwise distinctness of external ids. -/
theorem tryCreateOrder_pairwise (sid : Option Nat) (otype : String)
    (now : Nat) (s : DbState) (r : RawRecord)
    (h : s.orders.Pairwise (fun a b => a.order_id ≠ b.order_id)) :
    (tryCreateOrder sid otype now s r).orders.Pairwise
      (fun a b => a.order_id ≠ b.order_id) := by
  rcases tryCreateOrder_cases sid otype now s r with ⟨_, he⟩ | ⟨hd, he⟩
  · rw [he]
    exact h
  · rw [he]
    show (s.orders ++ [newOrderOf sid otype now s r]).Pairwise _
    rw [List.pairwise_append]
    refine ⟨h, List.pairwise_singleton _ _, ?_⟩
    intro a ha b hb
    rw [List.mem_singleton] at hb
    subst hb
    intro heq
    have hany : s.orders.any (fun o => o.order_id == r.order_id) = true :=
      List.any_eq_true.2 ⟨a, ha, beq_iff_eq.2 heq⟩
    rw [hany] at hd
    exact absurd hd (by decide)

theorem ingestBatch_cons (sid : Option Nat) (otype : String) (now : Nat)
    (r : RawRecord) (rs : List RawRecord) (s : DbState) :
    ingestBatch sid otype now (r :: rs) s =
      ingestBatch sid otype now rs (tryCreateOrder sid otype now s r) := rfl

theorem ingestBatch_keeps (sid : Option Nat) (otype : String) (now : Nat)
    (recs : List RawRecord) :
    ∀ (s : DbState) (eid : String),
      s.orders.any (fun o => o.order_id == eid) = true →
      (ingestBatch sid otype now recs s).orders.filter (fun o => o.order_id == eid) =
        s.orders.filter (fun o => o.order_id == eid) := by
  induction recs with
  | nil => intro s eid _; rfl
  | cons r rs ih =>
    intro s eid h
    obtain ⟨h1, h2⟩ := tryCreateOrder_keeps sid otype now s r eid h
    rw [ingestBatch_cons, ih (tryCreateOrder sid otype now s r) eid h1, h2]

theorem ingestBatch_pairwise (sid : Option Nat) (otype : String) (now : Nat)
    (recs : List RawRecord) :
    ∀ s : DbState,
      s.orders.Pairwise (fun a b => a.order_id ≠ b.order_id) →
      (ingestBatch sid otype now recs s).orders.Pairwise
        (fun a b => a.order_id ≠ b.order_id) := by
  induction recs with
  | nil => intro s h; exact h
  | cons r rs ih =>
    intro s h
    rw [ingestBatch_cons]
    exact ih _ (tryCreateOrder_pairwise sid otype now s r h)

/-- A list of rows with pairwise distinct external ids holds at most one
row per external id. -/
theorem countP_le_one_of_pairwise (l : List Order)
    (h : l.Pairwise (fun a b => a.order_id ≠ b.order_id)) (x : String) :
    l.countP (fun o => o.order_id == x) ≤ 1 := by
  induction l with
  | nil => simp
  | cons a t ih =>
    rw [List.countP_cons]
    rcases List.pairwise_cons.1 h with ⟨ha, ht⟩
    by_cases hx : (a.order_id == x) = true
    · have h0 : t.countP (fun o => o.order_id == x) = 0 := by
        rw [List.countP_eq_zero]
        intro b hb hbx
        exact ha b hb (by rw [beq_iff_eq.1 hx, ← beq_iff_eq.1 hbx])
      simp [h0, hx]
    · simp only [hx, if_false]
      simpa using ih ht

/-- C1: re-ingesting an external id that is already present (whatever its
status) changes none of its rows and adds no second row, and ingestion
preserves the uniqueness invariant: from a store with pairwise distinct
external ids, any ingestion batch leaves at most one row per external id. -/
theorem c1_ingest_dedup (s : DbState) (sid : Option Nat) (otype : String)
    (now : Nat) (recs : List RawRecord) (eid : String) :
    (s.orders.any (fun o => o.order_id == eid) = true →
      (ingestBatch sid otype now recs s).orders.filter (fun o => o.order_id == eid) =
        s.orders.filter (fun o => o.order_id == eid)) ∧
    (s.orders.Pairwise (fun a b => a.order_id ≠ b.order_id) →
      (ingestBatch sid otype now recs s).orders.Pairwise
        (fun a b => a.order_id ≠ b.order_id) ∧
      ∀ x : String,
        (ingestBatch sid otype now recs s).orders.countP
          (fun o => o.order_id == x) ≤ 1) := by
  refine ⟨fun h => ingestBatch_keeps sid otype now recs s eid h, fun h => ?_⟩
  have hp := ingestBatch_pairwise sid otype now recs s h
  exact ⟨hp, countP_le_one_of_pairwise _ hp⟩

def oC1 : Order := mkOrder 1 "EXT-100" (some 1) "confirmed"

def sC1 : DbState :=
  { orders := [oC1], call_logs := [], assignments := [],
    stores := [{ id := 1, name := "Indian Goods Hub" }], users := [],
    nextOrderId := 2 }

def rC1 : RawRecord :=
  { order_id := "EXT-100", customer_name := "Asha", phone := "9876543210",
    address := "12 Main Street", pincode := "110001",
    product_name := "Widget", price := 499, qty := 1,
    order_date := "2026-01-02" }

/-- C1 witness: re-ingesting EXT-100 after it reached confirmed leaves its
row untouched and adds no second row. -/
theorem c1_witness :
    (ingestBatch (some 1) "cod" 6 [rC1] sC1).orders.filter
        (fun o => o.order_id == "EXT-100") =
      sC1.orders.filter (fun o => o.order_id == "EXT-100") :=
  (c1_ingest_dedup sC1 (some 1) "cod" 6 [rC1] "EXT-100").1 (by decide)

/-! ### Lemmas about distribute_orders -/

theorem ids_assignOrder (s : DbState) (oid : String) (c n : Nat) :
    (assignOrder s oid c n).orders.map (fun o => o.order_id) =
      s.orders.map (fun o => o.order_id) := by
  show (s.orders.map _).map _ = _
  rw [List.map_map]
  apply List.map_congr_left
  intro o _
  show (if o.order_id == oid then _ else o).order_id = o.order_id
  by_cases h : (o.order_id == oid) = true
  · rw [if_pos h]
  · rw [if_neg h]

theorem mem_assignOrder_of_ne (s : DbState) (oid : String) (c n : Nat)
    (o : Order) (ho : o ∈ s.orders) (hne : o.order_id ≠ oid) :
    o ∈ (assignOrder s oid c n).orders := by
  refine List.mem_map.2 ⟨o, ho, ?_⟩
  exact if_neg (by simp [hne])

/-- Rows whose external id differs from every distributed pending row
survive the assignment fold unchanged. -/
theorem distribFold_mem (ca : List (Nat × List Nat)) (now : Nat) :
    ∀ (ps : List Order) (s0 : DbState) (o : Order),
      o ∈ s0.orders → (∀ p ∈ ps, p.order_id ≠ o.order_id) →
      o ∈ (ps.foldl (fun st p =>
            match findCaller ca p.store_id with
            | some caller => assignOrder st p.order_id caller now
            | none => st) s0).orders := by
  intro ps
  induction ps with
  | nil => intro s0 o ho _; exact ho
  | cons p pt ih =>
    intro s0 o ho hne
    rw [List.foldl_cons]
    have step : o ∈ (match findCaller ca p.store_id with
        | some caller => assignOrder s0 p.order_id caller now
        | none => s0).orders := by
      cases hc : findCaller ca p.store_id with
      | none => exact ho
      | some caller =>
        exact mem_assignOrder_of_ne s0 p.order_id caller now o ho
          (fun hx => hne p (List.mem_cons_self p pt) hx.symm)
    exact ih _ o step (fun q hq => hne q (List.mem_cons_of_mem p hq))

theorem distribFold_ids (ca : List (Nat × List Nat)) (now : Nat) :
    ∀ (ps : List Order) (s0 : DbState),
      ((ps.foldl (fun st p =>
          match findCaller ca p.store_id with
          | some caller => assignOrder st p.order_id caller now
          | none => st) s0).orders.map (fun o => o.order_id)) =
        s0.orders.map (fun o => o.order_id) := by
  intro ps
  induction ps with
  | nil => intro s0; rfl
  | cons p pt ih =>
    intro s0
    rw [List.foldl_cons, ih]
    cases hc : findCaller ca p.store_id with
    | none => rfl
    | some caller => exact ids_assignOrder s0 p.order_id caller now

theorem distributeOrders_ids (s : DbState) (d : String) (n : Nat) :
    (distributeOrders s d n).orders.map (fun o => o.order_id) =
      s.orders.map (fun o => o.order_id) := by
  unfold distributeOrders
  by_cases h1 : (getAssignmentsForDate s d).isEmpty = true
  · rw [if_pos h1]
  · rw [if_neg h1]
    by_cases h2 : (s.orders.filter (fun o => o.status == "pending")).isEmpty = true
    · rw [if_pos h2]
    · rw [if_neg h2]
      exact distribFold_ids _ n _ s

theorem distributeOrders_no_assignments (s : DbState) (d : String) (n : Nat)
    (h : getAssignmentsForDate s d = []) : distributeOrders s d n = s := by
  unfold distributeOrders
  rw [h]
  rfl

theorem distributeOrders_no_pending (s : DbState) (d : String) (n : Nat)
    (h : s.orders.filter (fun o => o.status == "pending") = []) :
    distributeOrders s d n = s := by
  unfold distributeOrders
  rw [h]
  by_cases h1 : (getAssignmentsForDate s d).isEmpty = true
  · rw [if_pos h1]
  · rw [if_neg h1]
    rfl

theorem nodup_ids_ne (l : List Order)
    (h : (l.map (fun o => o.order_id)).Nodup) (p : Order) (hp : p ∈ l)
    (o : Order) (ho : o ∈ l) (hne : p ≠ o) : p.order_id ≠ o.order_id := by
  have hpw : l.Pairwise (fun a b => a.order_id ≠ b.order_id) :=
    (List.pairwise_map).1 h
  exact hpw.forall (fun a b hab => hab.symm) hp ho hne

theorem distributeOrders_mem_of_not_pending (s : DbState) (d : String)
    (n : Nat) (hnd : (s.orders.map (fun o => o.order_id)).Nodup)
    (o : Order) (ho : o ∈ s.orders) (hs : o.status ≠ "pending") :
    o ∈ (distributeOrders s d n).orders := by
  unfold distributeOrders
  by_cases h1 : (getAssignmentsForDate s d).isEmpty = true
  · rw [if_pos h1]
    exact ho
  · rw [if_neg h1]
    by_cases h2 : (s.orders.filter (fun o => o.status == "pending")).isEmpty = true
    · rw [if_pos h2]
      exact ho
    · rw [if_neg h2]
      apply distribFold_mem _ n _ s o ho
      intro p hp
      obtain ⟨hpm, hps⟩ := List.mem_filter.1 hp
      have hpo : p ≠ o := by
        intro he
        subst he
        exact hs (beq_iff_eq.1 hps)
      exact nodup_ids_ne s.orders hnd p hpm o ho hpo

/-- C5: distribute_orders is idempotent over already-assigned orders.  It
never adds or removes rows (the external id sequence is unchanged); with no
date-scoped assignment rows or no pending rows it is a whole-state no-op;
and under the uniqueness invariant every row not in status pending survives
one call unchanged, and every non-pending row of the first result (in
particular every row the first call assigned) survives the second call
unchanged, so no order is assigned twice across the two calls. -/
theorem c5_distribute_idempotent (s : DbState) (d : String) (n1 n2 : Nat) :
    (distributeOrders s d n1).orders.map (fun o => o.order_id) =
      s.orders.map (fun o => o.order_id) ∧
    (getAssignmentsForDate s d = [] → distributeOrders s d n1 = s) ∧
    (s.orders.filter (fun o => o.status == "pending") = [] →
      distributeOrders s d n1 = s) ∧
    ((s.orders.map (fun o => o.order_id)).Nodup →
      (∀ o ∈ s.orders, o.status ≠ "pending" →
        o ∈ (distributeOrders s d n1).orders) ∧
      (∀ o ∈ (distributeOrders s d n1).orders, o.status ≠ "pending" →
        o ∈ (distributeOrders (distributeOrders s d n1) d n2).orders)) := by
  refine ⟨distributeOrders_ids s d n1,
          distributeOrders_no_assignments s d n1,
          distributeOrders_no_pending s d n1,
          fun hnd => ?_⟩
  have hnd2 : ((distributeOrders s d n1).orders.map (fun o => o.order_id)).Nodup := by
    rw [distributeOrders_ids s d n1]
    exact hnd
  exact ⟨fun o ho hs => distributeOrders_mem_of_not_pending s d n1 hnd o ho hs,
         fun o ho hs => distributeOrders_mem_of_not_pending _ d n2 hnd2 o ho hs⟩

def oC5 : Order := mkOrder 1 "ORD-5" (some 1) "confirmed"

def oC5p : Order := mkOrder 2 "ORD-5P" (some 1) "pending"

def sC5 : DbState :=
  { orders := [oC5, oC5p], call_logs := [],
    assignments := [{ store_id := 1, caller_id := 7,
                      assigned_date := "2026-01-02" }],
    stores := [{ id := 1, name := "Indian Goods Hub" }], users := [7],
    nextOrderId := 3 }

/-- C5 witness: with an active assignment map and a pending order present,
a confirmed order survives two successive distribute calls unchanged. -/
theorem c5_witness :
    oC5 ∈ (distributeOrders sC5 "2026-01-02" 9).orders ∧
    ∀ o ∈ (distributeOrders sC5 "2026-01-02" 9).orders, o.status ≠ "pending" →
      o ∈ (distributeOrders (distributeOrders sC5 "2026-01-02" 9) "2026-01-02" 11).orders := by
  obtain ⟨h1, h2⟩ := (c5_distribute_idempotent sC5 "2026-01-02" 9 11).2.2.2 (by decide)
  exact ⟨h1 oC5 (by decide) (by decide), h2⟩

/-! ### Lemmas about api_edit_order -/

theorem edited_updateOrderEdits (s : DbState) (oid cname phone addr pin : String)
    (son : Option String) (now : Nat) :
    ∀ o2 ∈ (updateOrderEdits s oid cname phone addr pin son now).orders,
      o2.order_id = oid →
      o2.edited_customer_name = some cname ∧ o2.edited_phone = some phone ∧
      o2.edited_address = some addr ∧ o2.edited_pincode = some pin := by
  intro o2 h2 hid
  unfold updateOrderEdits at h2
  simp only [List.mem_map] at h2
  obtain ⟨o3, _, rfl⟩ := h2
  by_cases h : (o3.order_id == oid) = true
  · simp [h]
  · rw [if_neg h] at hid
    exact absurd (beq_iff_eq.2 hid) h

theorem edited_markShopifySynced (s : DbState) (oid2 : String) (now : Nat) :
    ∀ o2 ∈ (markShopifySynced s oid2 now).orders, ∃ o3 ∈ s.orders,
      o2.order_id = o3.order_id ∧
      o2.edited_customer_name = o3.edited_customer_name ∧
      o2.edited_phone = o3.edited_phone ∧
      o2.edited_address = o3.edited_address ∧
      o2.edited_pincode = o3.edited_pincode := by
  intro o2 h2
  unfold markShopifySynced at h2
  simp only [List.mem_map] at h2
  obtain ⟨o3, h3, rfl⟩ := h2
  refine ⟨o3, h3, ?_⟩
  by_cases h : (o3.order_id == oid2) = true
  · simp [h]
  · simp [h]

/-- The edit sync either leaves the store untouched or only stamps the
synced timestamp. -/
theorem syncOrderToShopify_orders (clients : EditClientMap) (s : DbState)
    (oid : String) (sid : Option Nat) (cname phone addr pin : String)
    (now : Nat) :
    (syncOrderToShopify clients s oid sid cname phone addr pin now).1.orders =
      s.orders ∨
    (syncOrderToShopify clients s oid sid cname phone addr pin now).1.orders =
      (markShopifySynced s oid now).orders := by
  unfold syncOrderToShopify
  cases h1 : sid.bind (fun i => s.stores.find? (fun st => st.id == i)) with
  | none => left; rfl
  | some store =>
    cases h2 : clients.find? (fun p => p.1 == store.name) with
    | none => left; simp [h2]
    | some pc =>
      cases h3 : pc.2 oid cname phone addr pin with
      | success => right; simp [h2, h3]
      | failed => left; simp [h2, h3]
      | exn m => left; simp [h2, h3]

/-- After the sync step, the rows of the edited external id still carry the
persisted edited shadow fields. -/
theorem edited_after_sync (clients : EditClientMap) (s : DbState)
    (oid : String) (sid : Option Nat) (cname phone addr pin : String)
    (son : Option String) (now : Nat) :
    ∀ o2 ∈ (syncOrderToShopify clients
        (updateOrderEdits s oid cname phone addr pin son now)
        oid sid cname phone addr pin now).1.orders,
      o2.order_id = oid →
      o2.edited_customer_name = some cname ∧ o2.edited_phone = some phone ∧
      o2.edited_address = some addr ∧ o2.edited_pincode = some pin := by
  rcases syncOrderToShopify_orders clients
      (updateOrderEdits s oid cname phone addr pin son now)
      oid sid cname phone addr pin now with he | he
  · rw [he]
    exact edited_updateOrderEdits s oid cname phone addr pin son now
  · rw [he]
    intro o2 h2 hid
    obtain ⟨o3, h3, hido, hcn, hph, had, hpc⟩ :=
      edited_markShopifySynced (updateOrderEdits s oid cname phone addr pin son now)
        oid now o2 h2
    rw [hcn, hph, had, hpc]
    exact edited_updateOrderEdits s oid cname phone addr pin son now o3 h3
      (by rw [← hido]; exact hid)

def oC8 : Order := mkOrder 1 "ORD-8" none "assigned"

def sC8 : DbState :=
  { orders := [oC8], call_logs := [], assignments := [], stores := [],
    users := [], nextOrderId := 2 }

/-- C8 counterexample: the claim says editOrder validates presence of all
four fields, but a request whose postal code is empty (name, phone and
address present, phone valid) is accepted and persisted, empty postal code
included. -/
theorem c8_counterexample :
    (apiEditOrder noEditClients sC8 "ORD-8" "Alice" "9876543210" "12 Main Street" "" 5).1 =
      EditResult.success false ∧
    ((apiEditOrder noEditClients sC8 "ORD-8" "Alice" "9876543210" "12 Main Street" "" 5).2.orders.map
        Order.edited_pincode) = [some ""] := by
  decide

/-- C8 (amended): editOrder validates presence of the order id, name,
phone and address only — postal code presence is not checked; it truncates
the over-length name (200), address (500) and postal code (10) rather than
rejecting; and, given those fields present, it rejects with a validation
error before any persistence exactly when the phone carries fewer than 10
or more than 15 digits after stripping non-digits. -/
theorem c8_edit_validation (clients : EditClientMap) (s : DbState)
    (oid rawName rawPhone rawAddr rawPin : String) (now : Nat) :
    ((oid == "" || stripStr rawName == "" || stripStr rawPhone == "" || stripStr rawAddr == "") = true →
       apiEditOrder clients s oid rawName rawPhone rawAddr rawPin now =
         (EditResult.missingFields, s)) ∧
    ((oid == "" || stripStr rawName == "" || stripStr rawPhone == "" || stripStr rawAddr == "") = false →
       ((phoneDigits (stripStr rawPhone) < 10 ∨ 15 < phoneDigits (stripStr rawPhone)) →
          apiEditOrder clients s oid rawName rawPhone rawAddr rawPin now =
            (EditResult.invalidPhone, s)) ∧
       (10 ≤ phoneDigits (stripStr rawPhone) → phoneDigits (stripStr rawPhone) ≤ 15 →
          (apiEditOrder clients s oid rawName rawPhone rawAddr rawPin now).1 ≠
            EditResult.invalidPhone ∧
          (apiEditOrder clients s oid rawName rawPhone rawAddr rawPin now).1 ≠
            EditResult.missingFields ∧
          ∀ o2 ∈ (apiEditOrder clients s oid rawName rawPhone rawAddr rawPin now).2.orders,
            o2.order_id = oid →
            o2.edited_customer_name = some (truncate 200 (stripStr rawName)) ∧
            o2.edited_phone = some (stripStr rawPhone) ∧
            o2.edited_address = some (truncate 500 (stripStr rawAddr)) ∧
            o2.edited_pincode = some (truncate 10 (stripStr rawPin)))) := by
  refine ⟨fun h => ?_, fun hpres => ⟨fun hph => ?_, fun h10 h15 => ?_⟩⟩
  · simp [apiEditOrder, h]
  · have e : (decide (phoneDigits (stripStr rawPhone) < 10) ||
        decide (phoneDigits (stripStr rawPhone) > 15)) = true := by
      rcases hph with h | h
      · simp [h]
      · simp [h]
    simp [apiEditOrder, hpres, e]
  · have e1 : decide (phoneDigits (stripStr rawPhone) < 10) = false :=
      decide_eq_false (Nat.not_lt.2 h10)
    have e2 : decide (phoneDigits (stripStr rawPhone) > 15) = false :=
      decide_eq_false (Nat.not_lt.2 h15)
    cases hof : getOrderById s oid with
    | none =>
      have hof2 : List.find? (fun x => x.order_id == oid) s.orders = none := hof
      refine ⟨?_, ?_, ?_⟩
      · simp [apiEditOrder, hpres, e1, e2, hof]
      · simp [apiEditOrder, hpres, e1, e2, hof]
      · simp only [apiEditOrder, hpres, e1, e2, hof]
        intro o2 h2 hid
        simp only [Bool.or_self, Bool.false_or, if_false] at h2
        exact absurd (beq_iff_eq.2 hid) (List.find?_eq_none.1 hof2 o2 h2)
    | some o =>
      refine ⟨?_, ?_, ?_⟩
      · simp [apiEditOrder, hpres, e1, e2, hof]
      · simp [apiEditOrder, hpres, e1, e2, hof]
      · simp only [apiEditOrder, hpres, e1, e2, hof, Bool.or_self,
                   Bool.false_or, if_false]
        exact edited_after_sync clients s oid o.store_id
          (truncate 200 (stripStr rawName)) (stripStr rawPhone)
          (truncate 500 (stripStr rawAddr)) (truncate 10 (stripStr rawPin)) none now

/-- C8 witness: scenario F, phone with 3 digits is rejected with a
validation error and no state change; the same request with a valid phone
is not rejected. -/
theorem c8_witness :
    apiEditOrder noEditClients sC8 "ORD-8" "Alice" "123" "12 Main Street" "110001" 5 =
      (EditResult.invalidPhone, sC8) :=
  ((c8_edit_validation noEditClients sC8 "ORD-8" "Alice" "123" "12 Main Street"
      "110001" 5).2 (by decide)).1 (by decide)

/-! ### Lemmas for the no-calling-status invariant -/

theorem all_map_pres (p : Order → Bool) (l : List Order) (f : Order → Order)
    (hf : ∀ o, p o = true → p (f o) = true) (h : l.all p = true) :
    (l.map f).all p = true := by
  rw [List.all_eq_true] at h ⊢
  intro x hx
  rw [List.mem_map] at hx
  obtain ⟨o, ho, rfl⟩ := hx
  exact hf o (h o ho)

theorem noCalling_tryCreateOrder (sid : Option Nat) (otype : String)
    (now : Nat) (s : DbState) (r : RawRecord) (h : noCalling s = true) :
    noCalling (tryCreateOrder sid otype now s r) = true := by
  rcases tryCreateOrder_cases sid otype now s r with ⟨_, he⟩ | ⟨_, he⟩
  · rw [he]
    exact h
  · rw [he]
    unfold noCalling at h ⊢
    simp [List.all_append, h, newOrderOf, newOrderRow]

theorem noCalling_ingestBatch (sid : Option Nat) (otype : String) (now : Nat)
    (recs : List RawRecord) :
    ∀ s : DbState, noCalling s = true →
      noCalling (ingestBatch sid otype now recs s) = true := by
  induction recs with
  | nil => intro s h; exact h
  | cons r rs ih =>
    intro s h
    rw [ingestBatch_cons]
    exact ih _ (noCalling_tryCreateOrder sid otype now s r h)

theorem noCalling_updateOrderStatus (s : DbState) (oid st : String)
    (fs : Option String) (now : Nat) (hst : (st == "calling") = false)
    (h : noCalling s = true) :
    noCalling (updateOrderStatus s oid st fs now) = true := by
  unfold noCalling at h ⊢
  unfold updateOrderStatus
  split <;>
  · refine all_map_pres _ _ _ (fun o ho => ?_) h
    by_cases hc : (o.order_id == oid) = true
    · simp [hc, hst]
    · simp [hc]
      simpa using ho

theorem noCalling_incrementAttempts (s : DbState) (oid : String) (now : Nat)
    (h : noCalling s = true) :
    noCalling (incrementAttempts s oid now) = true := by
  unfold noCalling at h ⊢
  unfold incrementAttempts
  refine all_map_pres _ _ _ (fun o ho => ?_) h
  by_cases hc : (o.order_id == oid) = true
  · simp [hc]
    simpa using ho
  · simp [hc]
    simpa using ho

theorem noCalling_assignOrder (s : DbState) (oid : String) (c n : Nat)
    (h : noCalling s = true) : noCalling (assignOrder s oid c n) = true := by
  unfold noCalling at h ⊢
  unfold assignOrder
  refine all_map_pres _ _ _ (fun o ho => ?_) h
  by_cases hc : (o.order_id == oid) = true
  · simp [hc]
  · simp [hc]
    simpa using ho

theorem noCalling_createCallLog (s : DbState) (orderRef caller : Nat)
    (phone : String) (cs ce : Option String) (cd : Nat) (st : String)
    (h : noCalling s = true) :
    noCalling (createCallLog s orderRef caller phone cs ce cd st) = true := h

theorem noCalling_dispositionUpdate (s : DbState) (oid code : String)
    (now : Nat) (h : noCalling s = true) :
    noCalling (dispositionUpdate s oid code now).1 = true := by
  by_cases h1 : strContains "confirm" (lowerStr code) = true
  · rw [dispositionUpdate_confirm_eq s oid code now h1]
    exact noCalling_updateOrderStatus s oid _ _ now (by decide) h
  · by_cases h2 : strContains "cancel" (lowerStr code) = true
    · rw [dispositionUpdate_cancel_eq s oid code now (Bool.eq_false_iff.2 h1) h2]
      exact noCalling_updateOrderStatus s oid _ _ now (by decide) h
    · rw [dispositionUpdate_retry_eq s oid code now
            (Bool.eq_false_iff.2 h1) (Bool.eq_false_iff.2 h2)]
      exact noCalling_updateOrderStatus s oid _ _ now (by decide) h

theorem noCalling_apiUpdateStatus (clients : TagClientMap) (s : DbState)
    (oid code : String) (caller : Nat) (cs ce : Option String) (cd now : Nat)
    (h : noCalling s = true) :
    noCalling (apiUpdateStatus clients s oid code caller cs ce cd now).2.1 = true := by
  cases hv : (validStatuses.map lowerStr).contains (lowerStr code) with
  | false =>
    unfold apiUpdateStatus
    rw [hv]
    exact h
  | true =>
    cases hof : getOrderById s oid with
    | none =>
      unfold apiUpdateStatus
      rw [hv, hof]
      exact h
    | some o =>
      rw [apiUpdateStatus_valid_found clients s oid code caller cs ce cd now o hv hof]
      exact noCalling_dispositionUpdate _ oid code now
        (noCalling_createCallLog _ o.id caller o.phone cs ce cd code
          (noCalling_incrementAttempts s oid now h))

theorem noCalling_updateOrderEdits (s : DbState)
    (oid cname phone addr pin : String) (son : Option String) (now : Nat)
    (h : noCalling s = true) :
    noCalling (updateOrderEdits s oid cname phone addr pin son now) = true := by
  unfold noCalling at h ⊢
  unfold updateOrderEdits
  refine all_map_pres _ _ _ (fun o ho => ?_) h
  by_cases hc : (o.order_id == oid) = true
  · simp [hc]
    simpa using ho
  · simp [hc]
    simpa using ho

theorem noCalling_markShopifySynced (s : DbState) (oid : String) (now : Nat)
    (h : noCalling s = true) :
    noCalling (markShopifySynced s oid now) = true := by
  unfold noCalling at h ⊢
  unfold markShopifySynced
  refine all_map_pres _ _ _ (fun o ho => ?_) h
  by_cases hc : (o.order_id == oid) = true
  · simp [hc]
    simpa using ho
  · simp [hc]
    simpa using ho

theorem noCalling_syncOrderToShopify (clients : EditClientMap) (s : DbState)
    (oid : String) (sid : Option Nat) (cname phone addr pin : String)
    (now : Nat) (h : noCalling s = true) :
    noCalling (syncOrderToShopify clients s oid sid cname phone addr pin now).1 = true := by
  rcases syncOrderToShopify_orders clients s oid sid cname phone addr pin now
    with he | he
  · unfold noCalling
    rw [he]
    exact h
  · unfold noCalling
    rw [he]
    exact noCalling_markShopifySynced s oid now h

theorem noCalling_apiEditOrder (clients : EditClientMap) (s : DbState)
    (oid rawName rawPhone rawAddr rawPin : String) (now : Nat)
    (h : noCalling s = true) :
    noCalling (apiEditOrder clients s oid rawName rawPhone rawAddr rawPin now).2 = true := by
  unfold apiEditOrder
  cases hp : (oid == "" || stripStr rawName == "" || stripStr rawPhone == "" ||
      stripStr rawAddr == "") with
  | true => exact h
  | false =>
    cases hd : (decide (phoneDigits (stripStr rawPhone) < 10) ||
        decide (phoneDigits (stripStr rawPhone) > 15)) with
    | true => exact h
    | false =>
      cases hof : getOrderById s oid with
      | none => exact h
      | some o =>
        exact noCalling_syncOrderToShopify clients _ oid o.store_id _ _ _ _ now
          (noCalling_updateOrderEdits s oid _ _ _ _ none now h)

theorem noCalling_distribFold (ca : List (Nat × List Nat)) (now : Nat) :
    ∀ (ps : List Order) (s0 : DbState), noCalling s0 = true →
      noCalling (ps.foldl (fun st p =>
        match findCaller ca p.store_id with
        | some caller => assignOrder st p.order_id caller now
        | none => st) s0) = true := by
  intro ps
  induction ps with
  | nil => intro s0 h; exact h
  | cons p pt ih =>
    intro s0 h
    rw [List.foldl_cons]
    apply ih
    cases hc : findCaller ca p.store_id with
    | none => exact h
    | some caller => exact noCalling_assignOrder s0 p.order_id caller now h

theorem noCalling_distributeOrders (s : DbState) (d : String) (n : Nat)
    (h : noCalling s = true) : noCalling (distributeOrders s d n) = true := by
  unfold distributeOrders
  by_cases h1 : (getAssignmentsForDate s d).isEmpty = true
  · rw [if_pos h1]
    exact h
  · rw [if_neg h1]
    by_cases h2 : (s.orders.filter (fun o => o.status == "pending")).isEmpty = true
    · rw [if_pos h2]
      exact h
    · rw [if_neg h2]
      exact noCalling_distribFold _ n _ s h

theorem noCalling_stepOp (op : EngineOp) (s : DbState)
    (h : noCalling s = true) : noCalling (stepOp op s) = true := by
  cases op with
  | ingest sid otype now recs => exact noCalling_ingestBatch sid otype now recs s h
  | distribute d n => exact noCalling_distributeOrders s d n h
  | updateStatus cl oid code c cs ce cd now =>
    exact noCalling_apiUpdateStatus cl s oid code c cs ce cd now h
  | editOrder cl oid n p a pin now =>
    exact noCalling_apiEditOrder cl s oid n p a pin now h
  | newAssignment st c d =>
    show noCalling (createAssignment s st c d) = true
    unfold createAssignment noCalling
    split
    · exact h
    · exact h
  | newStore i n => exact h
  | newUser u => exact h
  | assignAll c =>
    unfold noCalling at h ⊢
    unfold stepOp assignAllToCaller
    exact all_map_pres _ _ _ (fun o _ => by simp) h
  | reassign f t =>
    unfold noCalling at h ⊢
    unfold stepOp reassignCaller
    refine all_map_pres _ _ _ (fun o ho => ?_) h
    by_cases hc : (o.assigned_to == some f) = true
    · simp [hc]
      simpa using ho
    · simp [hc]
      simpa using ho
  | deleteAll => rfl

/-- C10: the schema permits the status value calling, but no engine
operation ever writes it: every status write of every operation is
pending, assigned, confirmed or cancelled, so from any state whose orders
avoid the status calling, every state reachable by engine operations also
avoids it. -/
theorem c10_calling_never_written (ops : List EngineOp) (s : DbState)
    (h : noCalling s = true) : noCalling (runOps ops s) = true := by
  induction ops generalizing s with
  | nil => exact h
  | cons op rest ih => exact ih (stepOp op s) (noCalling_stepOp op s h)

def dbEmpty : DbState :=
  { orders := [], call_logs := [], assignments := [], stores := [],
    users := [], nextOrderId := 1 }

def opsC10 : List EngineOp :=
  [EngineOp.newStore 1 "Indian Goods Hub",
   EngineOp.newUser 7,
   EngineOp.newAssignment 1 7 "2026-01-02",
   EngineOp.ingest (some 1) "cod" 1 [rC1],
   EngineOp.distribute "2026-01-02" 2,
   EngineOp.updateStatus noTagClients "EXT-100" "line busy" 7 none none 0 3,
   EngineOp.updateStatus noTagClients "EXT-100" "confirm on call" 7 none none 0 4]

/-- C10 witness: a full lifecycle run from the empty store never shows the
status calling. -/
theorem c10_witness : noCalling (runOps opsC10 dbEmpty) = true :=
  c10_calling_never_written opsC10 dbEmpty (by decide)
